import Mathlib

/-!
# Candidate Discovery & Relevance Ranking Engine — verification development

Shallow embedding of the discovery pipeline of the lead-generation dashboard:

* `ApiRoute` models `src/app/api/products/subreddits/route.ts` (the `GET`
  handler): filter raw provider records, normalize names, score, deduplicate
  against stored rows, upsert the survivors, re-read the ranked list.
* `RedditService` models `src/lib/services/reddit.ts`
  (`findRelevantSubreddits`): cache gate, provider adapter that converts
  failures into an empty result, scoring, filtering, `createMany`.

JavaScript string operations are embedded over `String.data` (lists of
characters): `jsLower` models `.toLowerCase()` (ASCII case mapping, as
`Char.toLower` only maps basic latin letters, which matches the data that
flows through this code), `jsIncludes` models `.includes(...)` and `jsOr`
models `a || b` on possibly-absent strings (both `undefined` and `""` are
falsy).  Database timestamps are modeled as `Nat` instants supplied by the
caller (`now`), database ids as a `Nat` counter threaded through the run.
-/

/-- JS `a || b` where `a : string | undefined`: both `undefined` and the
empty string fall through to the default. -/
def jsOr : Option String → String → String
  | some s, d => if s.isEmpty then d else s
  | none, d => d

/-- JS truthiness of a `string | undefined` value. -/
def truthyOpt : Option String → Bool
  | some s => !s.isEmpty
  | none => false

/-- `needle` is a prefix of `hay` (character lists). -/
def listStartsWith : List Char → List Char → Bool
  | [], _ => true
  | _ :: _, [] => false
  | a :: as, b :: bs => a == b && listStartsWith as bs

/-- `needle` occurs as a contiguous run inside `hay` (character lists). -/
def charsContains (hay needle : List Char) : Bool :=
  match hay with
  | [] => needle.isEmpty
  | _ :: cs => listStartsWith needle hay || charsContains cs needle

/-- JS `hay.includes(needle)`. -/
def jsIncludes (hay needle : String) : Bool :=
  charsContains hay.data needle.data

/-- JS `.toLowerCase()`, character-wise over the string's characters. -/
def jsLower (s : String) : String :=
  ⟨s.data.map Char.toLower⟩

/-- JS `.replace(/^r\//i, '')`: drop one leading `r/` or `R/` marker. -/
def stripLeadingRCI (s : String) : String :=
  match s.data with
  | a :: b :: rest => if (a == 'r' || a == 'R') && b == '/' then ⟨rest⟩ else s
  | _ => s

/-- JS `.replace(/^r\//, '')` (case-sensitive variant used in
`reddit.ts`): drop one leading lowercase `r/` marker. -/
def stripLeadingRCS (s : String) : String :=
  match s.data with
  | a :: b :: rest => if a == 'r' && b == '/' then ⟨rest⟩ else s
  | _ => s

/-- Insert into a list sorted by `score` descending (model of the JS
`sort((a, b) => b.score - a.score)` comparator). -/
def insertDesc {α : Type} (score : α → Int) (c : α) : List α → List α
  | [] => [c]
  | x :: xs => if score c ≤ score x then x :: insertDesc score c xs else c :: x :: xs

/-- Sort by `score` descending (insertion sort). -/
def sortDesc {α : Type} (score : α → Int) : List α → List α
  | [] => []
  | x :: xs => insertDesc score x (sortDesc score xs)

/-- A raw provider record as returned by the community-search scraper:
loosely typed, every field possibly absent or junk. -/
structure RawItem where
  dataType : String
  displayName : Option String
  title : Option String
  description : Option String
  numberOfMembers : Int
  over18 : Bool
  url : Option String
deriving DecidableEq

/-- An ephemeral candidate produced by one discovery run (the object
literal built in the route's `.map` step). -/
structure NewSuggestion where
  name : String
  title : String
  description : String
  memberCount : Int
  url : String
  relevanceScore : Int
  matchReason : String
  isMonitored : Bool
  productId : String
deriving DecidableEq

/-- A persistent `SubredditSuggestion` row. -/
structure StoredSuggestion where
  id : Nat
  name : String
  title : String
  description : String
  memberCount : Int
  url : String
  relevanceScore : Int
  matchReason : String
  isMonitored : Bool
  productId : String
  createdAt : Nat
  updatedAt : Nat
deriving DecidableEq

/-- The JSON-serializable suggestion shape returned to callers of
`findRelevantSubreddits` (`SubredditSuggestion` type): `id`/timestamps are
optional because the new-candidate path returns unpersisted objects, and
`matchReason` is optional (`result.matchReason || undefined`). -/
structure SuggestionOut where
  id : Option Nat
  name : String
  title : String
  description : String
  memberCount : Int
  url : String
  relevanceScore : Int
  matchReason : Option String
  isMonitored : Bool
  productId : String
  createdAt : Option Nat
  updatedAt : Option Nat
deriving DecidableEq

/-- View of a stored row as returned from the cache short-circuit:
`{ ...result, matchReason: result.matchReason || undefined }`. -/
def storedToOut (r : StoredSuggestion) : SuggestionOut :=
  { id := some r.id, name := r.name, title := r.title,
    description := r.description, memberCount := r.memberCount, url := r.url,
    relevanceScore := r.relevanceScore,
    matchReason := if r.matchReason.isEmpty then none else some r.matchReason,
    isMonitored := r.isMonitored, productId := r.productId,
    createdAt := some r.createdAt, updatedAt := some r.updatedAt }

/-- View of an unpersisted candidate as returned by the live-discovery
path of `findRelevantSubreddits`. -/
def candToOut (c : NewSuggestion) : SuggestionOut :=
  { id := none, name := c.name, title := c.title, description := c.description,
    memberCount := c.memberCount, url := c.url,
    relevanceScore := c.relevanceScore, matchReason := some c.matchReason,
    isMonitored := c.isMonitored, productId := c.productId,
    createdAt := none, updatedAt := none }

/-- The canonical (dedup-key) form of a community name per the spec:
strip the leading community-prefix marker, then compare case-insensitively.
This is also exactly the name computation of the route's normalizer. -/
def canonicalName (s : String) : String :=
  jsLower (stripLeadingRCI s)

namespace ApiRoute

/-- The `.filter` step of the route: keep only community records with at
least 1000 members, not NSFW, and carrying a (truthy) `displayName`. -/
def passesFilter (item : RawItem) : Bool :=
  item.dataType == "community" && decide (1000 ≤ item.numberOfMembers)
    && !item.over18 && truthyOpt item.displayName

/-- Body of the scoring `forEach`: accumulate (score, relevanceHits) for
one keyword — `+15` for a title hit, `+10` for a description hit, each hit
also bumping `relevanceHits`. -/
def scoreKeyword (titleLower descLower : String) (acc : Int × Nat)
    (keyword : String) : Int × Nat :=
  let keywordLower := jsLower keyword
  let acc1 :=
    if jsIncludes titleLower keywordLower then (acc.1 + 15, acc.2 + 1) else acc
  if jsIncludes descLower keywordLower then (acc1.1 + 10, acc1.2 + 1) else acc1

/-- `calculateRelevanceScore` of `route.ts`: base 70, keyword hits, member
bonuses/penalties, a `-30` penalty when fewer than 30% of the keywords
matched, final clamp into `[0, 100]`.  The JS match percentage
`(relevanceHits / totalKeywords) * 100 < 30` is `NaN < 30 = false` for an
empty keyword list, hence the `totalKeywords ≠ 0` guard; otherwise
`hits * 100 < 30 * total` is the exact same comparison over integers. -/
def calculateRelevanceScore (subreddit : RawItem) (keywords : List String) : Int :=
  let titleLower := jsLower (jsOr subreddit.title "")
  let descLower := jsLower (jsOr subreddit.description "")
  let p := keywords.foldl (scoreKeyword titleLower descLower) (70, 0)
  let score := p.1
  let relevanceHits := p.2
  let totalKeywords := keywords.length
  let score := if subreddit.numberOfMembers > 1000000 then score + 10
    else if subreddit.numberOfMembers > 100000 then score + 5
    else score
  let score := if subreddit.numberOfMembers < 10000 then score - 20 else score
  let score :=
    if totalKeywords ≠ 0 ∧ relevanceHits * 100 < 30 * totalKeywords then
      score - 30
    else score
  min 100 (max 0 score)

/-- The cleaned name computed in the route's `.map` step:
`(item.displayName || item.title || '').replace(/^r\//i, '').toLowerCase()`. -/
def itemName (item : RawItem) : String :=
  jsLower (stripLeadingRCI (jsOr item.displayName (jsOr item.title "")))

/-- The `.map` step of the route: normalize the name (strip `r/`,
lowercase), skip names already stored, score and apply the `< 75` cutoff,
otherwise build the candidate object. -/
def processItem (existingNames : List String) (keywords : List String)
    (productId : String) (item : RawItem) : Option NewSuggestion :=
  let name := itemName item
  if existingNames.contains name then none
  else
    let relevanceScore := calculateRelevanceScore item keywords
    if relevanceScore < 75 then none
    else some
      { name := name,
        title := jsOr item.title name,
        description := jsOr item.description "No description available",
        memberCount := item.numberOfMembers,
        url := "https://reddit.com/r/" ++ name,
        relevanceScore := relevanceScore,
        matchReason := "Relevant to: " ++ String.intercalate ", " (keywords.take 3),
        isMonitored := false,
        productId := productId }

/-- `existingSubreddits` of the route: all stored rows of the product,
ordered by relevance score descending. -/
def existingSubreddits (store : List StoredSuggestion) (productId : String) :
    List StoredSuggestion :=
  sortDesc (fun r => r.relevanceScore)
    (store.filter (fun r => r.productId == productId))

/-- `existingNames` of the route: lowercased names of the stored rows. -/
def existingNames (store : List StoredSuggestion) (productId : String) :
    List String :=
  (existingSubreddits store productId).map (fun r => jsLower r.name)

/-- `newSubredditsData` of the route: filter, normalize/dedupe/score, drop
the `null`s, sort by relevance score descending. -/
def newSubredditsData (store : List StoredSuggestion) (productId : String)
    (keywords : List String) (items : List RawItem) : List NewSuggestion :=
  sortDesc (fun c => c.relevanceScore)
    ((items.filter passesFilter).filterMap
      (processItem (existingNames store productId) keywords productId))

/-- One `prisma.subredditSuggestion.upsert` keyed on `(productId, name)`:
the update path overwrites `relevanceScore`, `matchReason`, `description`,
`memberCount`, `updatedAt`; the create path inserts the candidate with a
fresh id and `createdAt = updatedAt = now`. -/
def upsertOne (productId : String) (now : Nat)
    (st : List StoredSuggestion × Nat) (c : NewSuggestion) :
    List StoredSuggestion × Nat :=
  if st.1.any (fun r => r.productId == productId && r.name == c.name) then
    (st.1.map (fun r =>
      if r.productId == productId && r.name == c.name then
        { r with relevanceScore := c.relevanceScore,
                 matchReason := c.matchReason,
                 description := c.description,
                 memberCount := c.memberCount,
                 updatedAt := now }
      else r), st.2)
  else
    (st.1 ++ [{ id := st.2, name := c.name, title := c.title,
                description := c.description, memberCount := c.memberCount,
                url := c.url, relevanceScore := c.relevanceScore,
                matchReason := c.matchReason, isMonitored := c.isMonitored,
                productId := productId, createdAt := now, updatedAt := now }],
     st.2 + 1)

/-- The store and id counter after the `prisma.$transaction` of upserts
over `newSubredditsData`. -/
def mergedState (store : List StoredSuggestion) (nextId : Nat)
    (productId : String) (keywords : List String) (items : List RawItem)
    (now : Nat) : List StoredSuggestion × Nat :=
  (newSubredditsData store productId keywords items).foldl
    (upsertOne productId now) (store, nextId)

/-- The `GET` handler of the route on its happy path: compute
`newSubredditsData`, merge it via the transactional batch of upserts, and
re-read all rows of the product ordered by score descending.  Returns the
updated store, the next fresh id, and the list serialized to the caller. -/
def GET (store : List StoredSuggestion) (nextId : Nat) (productId : String)
    (keywords : List String) (items : List RawItem) (now : Nat) :
    List StoredSuggestion × Nat × List StoredSuggestion :=
  let st := mergedState store nextId productId keywords items now
  (st.1, st.2,
    sortDesc (fun r => r.relevanceScore)
      (st.1.filter (fun r => r.productId == productId)))

/-- Parameters of one `GET` invocation (the provider response `items` is
part of the run, matching the route which always performs the live call). -/
structure RunArgs where
  productId : String
  keywords : List String
  items : List RawItem
  now : Nat

/-- Execute a sequence of `GET` invocations against a store. -/
def runAll : List RunArgs → List StoredSuggestion × Nat → List StoredSuggestion × Nat
  | [], st => st
  | a :: rest, st =>
      let r := GET st.1 st.2 a.productId a.keywords a.items a.now
      runAll rest (r.1, r.2.1)

/-- The fields of a stored row that a merge is never allowed to touch:
identity, key, `title`, `url`, the monitored flag and the creation time. -/
def SameIdentity (a b : StoredSuggestion) : Prop :=
  a.id = b.id ∧ a.name = b.name ∧ a.productId = b.productId ∧
    a.title = b.title ∧ a.url = b.url ∧ a.isMonitored = b.isMonitored ∧
    a.createdAt = b.createdAt

/-- The store contains a row keyed `(pid, nm)`. -/
def hasRow (store : List StoredSuggestion) (pid nm : String) : Prop :=
  ∃ r ∈ store, r.productId = pid ∧ r.name = nm

/-- All stored names are already lowercase. -/
def LowerNames (store : List StoredSuggestion) : Prop :=
  ∀ r ∈ store, jsLower r.name = r.name

/-- No two rows share the `(productId, name)` key (exact comparison). -/
def DistinctKeys (store : List StoredSuggestion) : Prop :=
  store.Pairwise (fun r s => r.productId ≠ s.productId ∨ r.name ≠ s.name)

end ApiRoute

namespace RedditService

/-- A provider record after the `isApifySubredditResponse` type guard of
`reddit.ts` (the guard itself lives in `src/types/apify`, outside the
sources; it is modeled by this record type being well-typed). -/
structure ApifyItem where
  displayName : Option String
  title : String
  url : String
  description : Option String
  numberOfMembers : Int
deriving DecidableEq

/-- `getSubredditsFromApify` of `reddit.ts`: any provider failure is
caught and becomes an empty list; valid items additionally need 1000+
members and truthy `title` and `url`. -/
def getSubredditsFromApify (resp : Except Unit (List ApifyItem)) : List ApifyItem :=
  match resp with
  | .error _ => []
  | .ok items =>
      items.filter (fun item =>
        decide (1000 ≤ item.numberOfMembers) && !item.title.isEmpty
          && !item.url.isEmpty)

/-- Body of the scoring `forEach` of `reddit.ts`: `+15` when any
space-separated part of the keyword occurs in the content, `+5` for the
whole keyword. -/
def scoreKeyword (content : String) (score : Int) (keyword : String) : Int :=
  let keywordParts := (jsLower keyword).splitOn " "
  let score :=
    if keywordParts.any (fun part => jsIncludes content part) then score + 15
    else score
  if jsIncludes content (jsLower keyword) then score + 5 else score

/-- Member-count bonus ladder of the `reddit.ts` scorer. -/
def memberBonus (score members : Int) : Int :=
  if members > 100000 then score + 25
  else if members > 10000 then score + 15
  else if members > 1000 then score + 10
  else score

/-- `+10` when the content carries one of the engagement words. -/
def engagementBonus (content : String) (score : Int) : Int :=
  if jsIncludes content "discuss" || jsIncludes content "help"
      || jsIncludes content "question" || jsIncludes content "advice" then
    score + 10
  else score

/-- Floor of 70 when any part of any keyword occurs in the content. -/
def partMatchFloor (content : String) (keywords : List String) (score : Int) : Int :=
  if keywords.any (fun keyword =>
      ((jsLower keyword).splitOn " ").any (fun part => jsIncludes content part)) then
    max score 70
  else score

/-- `calculateRelevanceScore` of `reddit.ts`: base 65, `+15` when any
space-separated part of a keyword occurs in title+description, `+5` for
the whole keyword, member bonuses, `+10` for engagement words, floor of 70
when any keyword part occurs, cap at 100 (`Math.min(100, score)`). -/
def calculateRelevanceScore (item : ApifyItem) (keywords : List String) : Int :=
  let content := jsLower (item.title ++ " " ++ jsOr item.description "")
  let score := keywords.foldl (scoreKeyword content) 65
  let score := memberBonus score item.numberOfMembers
  let score := engagementBonus content score
  let score := partMatchFloor content keywords score
  min 100 score

/-- The candidate objects built by the live path of
`findRelevantSubreddits`: map, `relevanceScore >= 60` filter, sort
descending, `slice(0, 5)`. -/
def liveSubreddits (productId : String) (kws : List String)
    (results : List ApifyItem) : List NewSuggestion :=
  ((sortDesc (fun s => s.relevanceScore)
    ((results.map (fun item =>
      ({ name := jsOr item.displayName (stripLeadingRCS item.title),
         title := item.title,
         description := jsOr item.description "",
         memberCount := item.numberOfMembers,
         url := item.url,
         relevanceScore := calculateRelevanceScore item kws,
         matchReason := "Matched keywords: " ++ String.intercalate ", " kws,
         isMonitored := false,
         productId := productId } : NewSuggestion))).filter
      (fun sub => decide (60 ≤ sub.relevanceScore))))).take 5

/-- Does a `createMany` of these candidates violate the `(productId,
name)` uniqueness constraint (against the store or within the batch)?  In
that case the insert throws and the outer `catch` of
`findRelevantSubreddits` returns `[]`. -/
def createManyConflict (store : List StoredSuggestion) (productId : String)
    (cs : List NewSuggestion) : Bool :=
  cs.any (fun c =>
    store.any (fun r => r.productId == productId && r.name == c.name)) ||
  (cs.map (fun c => c.name)).any (fun n =>
    1 < ((cs.map (fun c => c.name)).filter (fun m => m == n)).length)

/-- Row inserted by `createMany` for one candidate. -/
def rowOfCandidate (id : Nat) (now : Nat) (c : NewSuggestion) : StoredSuggestion :=
  { id := id, name := c.name, title := c.title, description := c.description,
    memberCount := c.memberCount, url := c.url,
    relevanceScore := c.relevanceScore, matchReason := c.matchReason,
    isMonitored := c.isMonitored, productId := c.productId,
    createdAt := now, updatedAt := now }

/-- `findRelevantSubreddits` of `reddit.ts`.  Inputs: the store, the fresh
id counter, the product id, the product's keyword list (`none` when the
product is missing or has no keywords), the provider response (`Except`
models a thrown provider error) and the current instant.  Output: the
updated store, the next id, and the list returned to the caller. -/
def findRelevantSubreddits (store : List StoredSuggestion) (nextId : Nat)
    (productId : String) (productKeywords : Option (List String))
    (resp : Except Unit (List ApifyItem)) (now : Nat) :
    List StoredSuggestion × Nat × List SuggestionOut :=
  let cachedResults :=
    (sortDesc (fun r => r.relevanceScore)
      (store.filter (fun r =>
        r.productId == productId && decide (60 ≤ r.relevanceScore)))).take 5
  if 5 ≤ cachedResults.length then
    (store, nextId, cachedResults.map storedToOut)
  else
    match productKeywords with
    | none => (store, nextId, [])
    | some kws =>
      if kws.isEmpty then (store, nextId, [])
      else
        let results := getSubredditsFromApify resp
        let subreddits := liveSubreddits productId kws results
        if subreddits.isEmpty then (store, nextId, subreddits.map candToOut)
        else if createManyConflict store productId subreddits then
          (store, nextId, [])
        else
          let st := subreddits.foldl
            (fun (p : List StoredSuggestion × Nat) c =>
              (p.1 ++ [rowOfCandidate p.2 now c], p.2 + 1)) (store, nextId)
          (st.1, st.2, subreddits.map candToOut)

end RedditService

/-- The uniqueness property claimed in C1: no two stored rows share the
product and the canonical (prefix-stripped, case-insensitive) name. -/
def UniqueCanonicalNames (store : List StoredSuggestion) : Prop :=
  store.Pairwise (fun r s =>
    r.productId ≠ s.productId ∨ canonicalName r.name ≠ canonicalName s.name)

instance (r s : StoredSuggestion) : Decidable
    (r.productId ≠ s.productId ∨ canonicalName r.name ≠ canonicalName s.name) :=
  inferInstance

instance (store : List StoredSuggestion) : Decidable (UniqueCanonicalNames store) :=
  inferInstanceAs (Decidable (store.Pairwise (fun r s : StoredSuggestion =>
    r.productId ≠ s.productId ∨ canonicalName r.name ≠ canonicalName s.name)))

/-- A raw record whose display name carries a doubled community marker:
normalization strips only one `r/`, leaving a stored name `r/foo`. -/
def c1item1 : RawItem :=
  { dataType := "community", displayName := some "r/r/foo",
    title := some "foo", description := some "foo",
    numberOfMembers := 50000, over18 := false, url := none }

/-- The same community later reported with a single marker: normalization
yields `foo`, which the dedup check does not match against `r/foo`. -/
def c1item2 : RawItem :=
  { c1item1 with displayName := some "r/foo" }

/-- Two discover runs for product `p` delivering the records above. -/
def c1runs : List ApiRoute.RunArgs :=
  [{ productId := "p", keywords := ["foo"], items := [c1item1], now := 1 },
   { productId := "p", keywords := ["foo"], items := [c1item2], now := 2 }]

/-- A monitored stored row used to witness C3. -/
def c3row : StoredSuggestion :=
  { id := 0, name := "foo", title := "t", description := "d",
    memberCount := 5000, url := "u", relevanceScore := 80, matchReason := "m",
    isMonitored := true, productId := "p", createdAt := 0, updatedAt := 0 }

/-- A raw record that reproduces the candidate stored as `c3row`. -/
def c3item : RawItem :=
  { dataType := "community", displayName := some "r/FOO",
    title := some "foo", description := some "foo",
    numberOfMembers := 50000, over18 := false, url := none }

/-- A stored row for product `p` with the given id and score, used in the
C5/C6 scenarios. -/
def c5row (i : Nat) (sc : Int) : StoredSuggestion :=
  { id := i, name := "name" ++ toString i, title := "t", description := "d",
    memberCount := 5000, url := "u", relevanceScore := sc, matchReason := "m",
    isMonitored := false, productId := "p", createdAt := 0, updatedAt := 0 }

/-- Six stored rows for product `p`, all with `relevanceScore ≥ 60`. -/
def c5store : List StoredSuggestion :=
  [c5row 0 90, c5row 1 89, c5row 2 88, c5row 3 87, c5row 4 86, c5row 5 85]

/-- A store with one row for product `p` (score 80): not enough for the
cache gate. -/
def c6store : List StoredSuggestion := [c5row 0 80]

/-- A stored row with a canonical name, used to witness C7. -/
def c7row : StoredSuggestion :=
  { id := 0, name := "foo", title := "t", description := "d",
    memberCount := 5000, url := "u", relevanceScore := 80, matchReason := "m",
    isMonitored := false, productId := "p", createdAt := 0, updatedAt := 0 }

/-- A stored row whose name still carries the community marker (the route
itself stores such a row for a raw `displayName` of `r/r/foo`, see C1). -/
def c7badrow : StoredSuggestion :=
  { c7row with name := "r/foo" }

/-- A raw record whose canonical name `foo` equals the canonical name of
the stored `r/foo`. -/
def c7newitem : RawItem :=
  { dataType := "community", displayName := some "foo",
    title := some "foo", description := some "foo",
    numberOfMembers := 50000, over18 := false, url := none }

/-- A raw record whose canonical name collides (case-insensitively, after
prefix stripping) with the stored `foo`. -/
def c7item : RawItem :=
  { dataType := "community", displayName := some "r/FOO",
    title := some "foo", description := some "foo",
    numberOfMembers := 50000, over18 := false, url := none }

/-- An NSFW record with a large member count, used to witness C8. -/
def c8bad : RawItem :=
  { dataType := "community", displayName := some "r/bad",
    title := some "bad", description := some "bad",
    numberOfMembers := 150000, over18 := true, url := none }

/-- The keyword list of the C9 scenario. -/
def c9kws : List String := ["meal planning", "budget cooking"]

/-- The C9 provider record exactly as the claim states it: a `title` but
no `displayName` field. -/
def c9item : RawItem :=
  { dataType := "community", displayName := none,
    title := some "r/MealPrepSunday",
    description := some "budget cooking and meal planning tips",
    numberOfMembers := 150000, over18 := false, url := none }

/-- The C9 record amended with a `displayName`. -/
def c9itemDN : RawItem :=
  { c9item with displayName := some "r/MealPrepSunday" }

/-- The row the route persists for `c9itemDN` on an empty store at
instant 7 for product `p1`. -/
def c9row : StoredSuggestion :=
  { id := 0, name := "mealprepsunday", title := "r/MealPrepSunday",
    description := "budget cooking and meal planning tips",
    memberCount := 150000, url := "https://reddit.com/r/mealprepsunday",
    relevanceScore := 95,
    matchReason := "Relevant to: meal planning, budget cooking",
    isMonitored := false, productId := "p1", createdAt := 7, updatedAt := 7 }

/-! ## Basic lemmas about the embedded JS string operations -/

theorem toNat_ofNat_of_valid {n : Nat} (h : n.isValidChar) :
    (Char.ofNat n).toNat = n := by
  rw [Char.ofNat, dif_pos h]
  rfl

theorem char_toLower_toLower (c : Char) : c.toLower.toLower = c.toLower := by
  by_cases h : c.toNat ≥ 65 ∧ c.toNat ≤ 90
  · have h1 : c.toLower = Char.ofNat (c.toNat + 32) := by
      unfold Char.toLower
      exact if_pos h
    have hv : (c.toNat + 32).isValidChar := Or.inl (by omega)
    have h2 : (Char.ofNat (c.toNat + 32)).toNat = c.toNat + 32 :=
      toNat_ofNat_of_valid hv
    rw [h1]
    unfold Char.toLower
    rw [if_neg]
    rw [h2]
    omega
  · have h1 : c.toLower = c := by
      unfold Char.toLower
      exact if_neg h
    rw [h1, h1]

theorem jsLower_idem (s : String) : jsLower (jsLower s) = jsLower s := by
  unfold jsLower
  simp only [List.map_map]
  have h : Char.toLower ∘ Char.toLower = Char.toLower :=
    funext char_toLower_toLower
  rw [h]

theorem mem_insertDesc {α : Type} (f : α → Int) (c a : α) (l : List α) :
    a ∈ insertDesc f c l ↔ a = c ∨ a ∈ l := by
  induction l with
  | nil => simp [insertDesc]
  | cons x xs ih =>
    unfold insertDesc
    split
    · simp only [List.mem_cons, ih]
      tauto
    · simp only [List.mem_cons]

theorem mem_sortDesc {α : Type} (f : α → Int) (a : α) (l : List α) :
    a ∈ sortDesc f l ↔ a ∈ l := by
  induction l with
  | nil => simp [sortDesc]
  | cons x xs ih => simp [sortDesc, mem_insertDesc, ih]

theorem length_insertDesc {α : Type} (f : α → Int) (c : α) (l : List α) :
    (insertDesc f c l).length = l.length + 1 := by
  induction l with
  | nil => rfl
  | cons x xs ih =>
    unfold insertDesc
    split <;> simp [ih]

theorem length_sortDesc {α : Type} (f : α → Int) (l : List α) :
    (sortDesc f l).length = l.length := by
  induction l with
  | nil => rfl
  | cons x xs ih => simp [sortDesc, length_insertDesc, ih]

theorem string_contains_iff (l : List String) (s : String) :
    l.contains s = true ↔ s ∈ l := by
  simp [List.contains]

namespace ApiRoute

theorem processItem_eq_some {en kws : List String} {pid : String}
    {item : RawItem} {c : NewSuggestion}
    (h : processItem en kws pid item = some c) :
    c.name = itemName item ∧ en.contains c.name = false ∧
      c.relevanceScore = calculateRelevanceScore item kws ∧
      75 ≤ c.relevanceScore ∧ c.productId = pid ∧ c.isMonitored = false := by
  simp only [processItem] at h
  split at h
  · exact absurd h (by simp)
  · split at h
    · exact absurd h (by simp)
    · next h1 h2 =>
      cases h
      refine ⟨rfl, ?_, rfl, ?_, rfl, rfl⟩
      · simpa using h1
      · show 75 ≤ calculateRelevanceScore item kws
        omega

theorem mem_existingNames {store : List StoredSuggestion} {pid nm : String} :
    nm ∈ existingNames store pid ↔
      ∃ r ∈ store, r.productId = pid ∧ jsLower r.name = nm := by
  unfold existingNames existingSubreddits
  simp [mem_sortDesc, List.mem_filter]
  constructor
  · rintro ⟨r, ⟨hr, hpid⟩, hnm⟩
    exact ⟨r, hr, by simpa using hpid, hnm⟩
  · rintro ⟨r, hr, hpid, hnm⟩
    exact ⟨r, ⟨hr, by simpa using hpid⟩, hnm⟩

theorem mem_newSubredditsData {store : List StoredSuggestion} {pid : String}
    {kws : List String} {items : List RawItem} {c : NewSuggestion}
    (h : c ∈ newSubredditsData store pid kws items) :
    jsLower c.name = c.name ∧ c.productId = pid ∧ c.isMonitored = false ∧
      75 ≤ c.relevanceScore ∧ c.name ∉ existingNames store pid := by
  unfold newSubredditsData at h
  rw [mem_sortDesc] at h
  obtain ⟨item, _, hc⟩ := List.mem_filterMap.mp h
  obtain ⟨hname, hcont, _, hge, hpid, hmon⟩ := processItem_eq_some hc
  refine ⟨?_, hpid, hmon, hge, ?_⟩
  · rw [hname]
    exact jsLower_idem _
  · intro hmem
    rw [← string_contains_iff] at hmem
    rw [hcont] at hmem
    cases hmem

end ApiRoute

namespace ApiRoute

theorem sameIdentity_refl (a : StoredSuggestion) : SameIdentity a a :=
  ⟨rfl, rfl, rfl, rfl, rfl, rfl, rfl⟩

theorem sameIdentity_trans {a b c : StoredSuggestion}
    (h1 : SameIdentity a b) (h2 : SameIdentity b c) : SameIdentity a c := by
  obtain ⟨e1, e2, e3, e4, e5, e6, e7⟩ := h1
  obtain ⟨f1, f2, f3, f4, f5, f6, f7⟩ := h2
  exact ⟨e1.trans f1, e2.trans f2, e3.trans f3, e4.trans f4, e5.trans f5,
    e6.trans f6, e7.trans f7⟩

theorem upsertOne_preserves {pid : String} {now : Nat}
    {st : List StoredSuggestion × Nat} {c : NewSuggestion}
    {r : StoredSuggestion} (hr : r ∈ st.1) :
    ∃ r' ∈ (upsertOne pid now st c).1, SameIdentity r' r := by
  unfold upsertOne
  split
  · refine ⟨_, List.mem_map_of_mem _ hr, ?_⟩
    split <;> exact ⟨rfl, rfl, rfl, rfl, rfl, rfl, rfl⟩
  · exact ⟨r, List.mem_append_left _ hr, sameIdentity_refl r⟩

theorem foldl_upsert_preserves {pid : String} {now : Nat}
    (batch : List NewSuggestion) :
    ∀ st : List StoredSuggestion × Nat, ∀ r ∈ st.1,
      ∃ r' ∈ (batch.foldl (upsertOne pid now) st).1, SameIdentity r' r := by
  induction batch with
  | nil => exact fun st r hr => ⟨r, hr, sameIdentity_refl r⟩
  | cons c cs ih =>
    intro st r hr
    obtain ⟨r₁, hr₁, hs₁⟩ := @upsertOne_preserves pid now st c r hr
    obtain ⟨r₂, hr₂, hs₂⟩ := ih (upsertOne pid now st c) r₁ hr₁
    exact ⟨r₂, hr₂, sameIdentity_trans hs₂ hs₁⟩

theorem upsertOne_hasRow_self (pid : String) (now : Nat)
    (st : List StoredSuggestion × Nat) (c : NewSuggestion) :
    hasRow (upsertOne pid now st c).1 pid c.name := by
  unfold upsertOne
  split
  · next h =>
    obtain ⟨r, hr, hkey⟩ := List.any_eq_true.mp h
    simp only [Bool.and_eq_true, beq_iff_eq] at hkey
    refine ⟨_, List.mem_map_of_mem _ hr, ?_⟩
    rw [if_pos]
    · exact ⟨hkey.1, hkey.2⟩
    · simp [hkey.1, hkey.2]
  · exact ⟨_, List.mem_append_right _ (List.mem_singleton.mpr rfl), rfl, rfl⟩

theorem hasRow_mono_upsertOne {pid now st c pid' nm}
    (h : hasRow st.1 pid' nm) :
    hasRow (upsertOne pid now st c).1 pid' nm := by
  obtain ⟨r, hr, h1, h2⟩ := h
  obtain ⟨r', hr', hs⟩ := @upsertOne_preserves pid now st c r hr
  exact ⟨r', hr', hs.2.2.1.trans h1, hs.2.1.trans h2⟩

theorem hasRow_mono_foldl {pid now pid' nm} (batch : List NewSuggestion)
    (st : List StoredSuggestion × Nat) (h : hasRow st.1 pid' nm) :
    hasRow ((batch.foldl (upsertOne pid now) st)).1 pid' nm := by
  obtain ⟨r, hr, h1, h2⟩ := h
  obtain ⟨r', hr', hs⟩ := foldl_upsert_preserves batch st r hr
  exact ⟨r', hr', hs.2.2.1.trans h1, hs.2.1.trans h2⟩

theorem hasRow_foldl_of_mem {pid : String} {now : Nat}
    (batch : List NewSuggestion) (st : List StoredSuggestion × Nat)
    {c : NewSuggestion} (hc : c ∈ batch) :
    hasRow ((batch.foldl (upsertOne pid now) st)).1 pid c.name := by
  induction batch generalizing st with
  | nil => cases hc
  | cons d ds ih =>
    rcases List.mem_cons.mp hc with rfl | hc'
    · exact hasRow_mono_foldl ds _ (upsertOne_hasRow_self pid now st c)
    · exact ih _ hc'

end ApiRoute

namespace ApiRoute

theorem GET_fst (store : List StoredSuggestion) (nextId : Nat) (pid : String)
    (kws : List String) (items : List RawItem) (now : Nat) :
    (GET store nextId pid kws items now).1 =
      (mergedState store nextId pid kws items now).1 := rfl

theorem processItem_second_none {store store' : List StoredSuggestion}
    {pid : String} {kws : List String} {item : RawItem}
    (hmono : ∀ nm ∈ existingNames store pid, nm ∈ existingNames store' pid)
    (hsome : ∀ c : NewSuggestion,
      processItem (existingNames store pid) kws pid item = some c →
        c.name ∈ existingNames store' pid) :
    processItem (existingNames store' pid) kws pid item = none := by
  cases h : processItem (existingNames store pid) kws pid item with
  | some c =>
    have hm := hsome c h
    have hname : c.name = itemName item := (processItem_eq_some h).1
    have hcont : (existingNames store' pid).contains (itemName item) = true := by
      rw [← hname]
      exact (string_contains_iff _ _).mpr hm
    simp only [processItem]
    rw [if_pos hcont]
  | none =>
    simp only [processItem] at h ⊢
    by_cases hc' : (existingNames store' pid).contains (itemName item) = true
    · rw [if_pos hc']
    · rw [if_neg hc']
      split at h
      · next hcont =>
        exact absurd
          ((string_contains_iff _ _).mpr
            (hmono _ ((string_contains_iff _ _).mp hcont))) hc'
      · split at h
        · next hscore => rw [if_pos hscore]
        · cases h

theorem existingNames_mono_GET {store : List StoredSuggestion} {nextId : Nat}
    {pid : String} {kws : List String} {items : List RawItem} {now : Nat} :
    ∀ nm ∈ existingNames store pid,
      nm ∈ existingNames (GET store nextId pid kws items now).1 pid := by
  intro nm hnm
  rw [mem_existingNames] at hnm ⊢
  obtain ⟨r, hr, hpid, hlow⟩ := hnm
  obtain ⟨r', hr', hs⟩ := @foldl_upsert_preserves pid now
    (newSubredditsData store pid kws items) (store, nextId) r hr
  exact ⟨r', hr', hs.2.2.1.trans hpid, by rw [hs.2.1]; exact hlow⟩

theorem newSubredditsData_after_GET (store : List StoredSuggestion)
    (nextId : Nat) (pid : String) (kws : List String) (items : List RawItem)
    (now : Nat) :
    newSubredditsData (GET store nextId pid kws items now).1 pid kws items = [] := by
  unfold newSubredditsData
  have hnil : (items.filter passesFilter).filterMap
      (processItem (existingNames (GET store nextId pid kws items now).1 pid)
        kws pid) = [] := by
    rw [List.filterMap_eq_nil_iff]
    intro item hitem
    apply @processItem_second_none store _ pid kws item
    · exact existingNames_mono_GET
    · intro c hc
      have hcb : c ∈ newSubredditsData store pid kws items := by
        unfold newSubredditsData
        rw [mem_sortDesc]
        exact List.mem_filterMap.mpr ⟨item, hitem, hc⟩
      have hrow : hasRow (GET store nextId pid kws items now).1 pid c.name :=
        hasRow_foldl_of_mem _ (store, nextId) hcb
      have hlow := (mem_newSubredditsData hcb).1
      rw [mem_existingNames]
      obtain ⟨r, hr, hpid, hnm⟩ := hrow
      exact ⟨r, hr, hpid, by rw [hnm]; exact hlow⟩
  rw [hnil]
  rfl

end ApiRoute

namespace ApiRoute

theorem mergedState_after_GET (store : List StoredSuggestion) (nextId : Nat)
    (pid : String) (kws : List String) (items : List RawItem) (now now₂ : Nat) :
    mergedState (GET store nextId pid kws items now).1
        (GET store nextId pid kws items now).2.1 pid kws items now₂ =
      ((GET store nextId pid kws items now).1,
        (GET store nextId pid kws items now).2.1) := by
  unfold mergedState
  rw [newSubredditsData_after_GET]
  rfl

end ApiRoute

/-- C2: running `discover` twice with an identical provider response is
idempotent: the second run deduplicates every candidate against the rows
the first run stored, so its merge batch is empty and the resulting store,
id counter and returned ranked list all equal those of the first run.  In
particular the second run creates no new rows, and in fact not even
`updatedAt` changes (stronger than the claim, which allows an `updatedAt`
bump). -/
theorem claim2_idempotent (store : List StoredSuggestion) (nextId : Nat)
    (pid : String) (kws : List String) (items : List RawItem) (now now₂ : Nat) :
    ApiRoute.GET (ApiRoute.GET store nextId pid kws items now).1
        (ApiRoute.GET store nextId pid kws items now).2.1 pid kws items now₂ =
      ApiRoute.GET store nextId pid kws items now := by
  conv_lhs => rw [ApiRoute.GET]
  rw [ApiRoute.mergedState_after_GET]
  rfl

namespace ApiRoute

theorem mem_upsertOne {pid : String} {now : Nat}
    {st : List StoredSuggestion × Nat} {c : NewSuggestion} {r' : StoredSuggestion}
    (h : r' ∈ (upsertOne pid now st c).1) :
    r' ∈ st.1 ∨ r'.relevanceScore = c.relevanceScore := by
  unfold upsertOne at h
  split at h
  · obtain ⟨r, hr, heq⟩ := List.mem_map.mp h
    by_cases hk : (r.productId == pid && r.name == c.name) = true
    · right
      rw [← heq, if_pos hk]
    · left
      rw [← heq, if_neg hk]
      exact hr
  · rcases List.mem_append.mp h with h' | h'
    · exact Or.inl h'
    · right
      rw [List.mem_singleton.mp h']

theorem mem_foldl_upsert {pid : String} {now : Nat}
    (batch : List NewSuggestion) :
    ∀ st : List StoredSuggestion × Nat,
      ∀ r' ∈ (batch.foldl (upsertOne pid now) st).1,
        r' ∈ st.1 ∨ ∃ c ∈ batch, r'.relevanceScore = c.relevanceScore := by
  induction batch with
  | nil => exact fun st r' h => Or.inl h
  | cons c cs ih =>
    intro st r' h
    rcases ih _ r' h with h' | ⟨d, hd, he⟩
    · rcases mem_upsertOne h' with h'' | he
      · exact Or.inl h''
      · exact Or.inr ⟨c, List.mem_cons_self c cs, he⟩
    · exact Or.inr ⟨d, List.mem_cons_of_mem _ hd, he⟩

theorem upsertOne_lowerNames {pid : String} {now : Nat}
    {st : List StoredSuggestion × Nat} {c : NewSuggestion}
    (h : LowerNames st.1) (hc : jsLower c.name = c.name) :
    LowerNames (upsertOne pid now st c).1 := by
  intro r' hr'
  unfold upsertOne at hr'
  split at hr'
  · obtain ⟨r, hr, heq⟩ := List.mem_map.mp hr'
    rw [← heq]
    split
    · exact h r hr
    · exact h r hr
  · rcases List.mem_append.mp hr' with h' | h'
    · exact h r' h'
    · rw [List.mem_singleton.mp h']
      exact hc

theorem upsertOne_distinctKeys {pid : String} {now : Nat}
    {st : List StoredSuggestion × Nat} {c : NewSuggestion}
    (h : DistinctKeys st.1) : DistinctKeys (upsertOne pid now st c).1 := by
  unfold upsertOne
  split
  · refine List.Pairwise.map _ ?_ h
    intro a b hab
    have ha : ∀ x : StoredSuggestion,
        ((if x.productId == pid && x.name == c.name then
          { x with relevanceScore := c.relevanceScore,
                   matchReason := c.matchReason, description := c.description,
                   memberCount := c.memberCount, updatedAt := now }
          else x) : StoredSuggestion).productId = x.productId ∧
        ((if x.productId == pid && x.name == c.name then
          { x with relevanceScore := c.relevanceScore,
                   matchReason := c.matchReason, description := c.description,
                   memberCount := c.memberCount, updatedAt := now }
          else x) : StoredSuggestion).name = x.name := by
      intro x
      split
      · exact ⟨rfl, rfl⟩
      · exact ⟨rfl, rfl⟩
    rcases hab with hne | hne
    · left
      rw [(ha a).1, (ha b).1]
      exact hne
    · right
      rw [(ha a).2, (ha b).2]
      exact hne
  · next hany =>
    refine List.pairwise_append.mpr ⟨h, List.pairwise_singleton _ _, ?_⟩
    intro a ha b hb
    rw [List.mem_singleton.mp hb]
    have hfalse : st.1.any (fun r => r.productId == pid && r.name == c.name) = false := by
      simpa using hany
    have := List.any_eq_false.mp hfalse a ha
    simp only [Bool.and_eq_true, beq_iff_eq, not_and_or] at this
    rcases this with hne | hne
    · exact Or.inl hne
    · exact Or.inr hne

end ApiRoute

namespace ApiRoute

theorem foldl_upsert_inv {pid : String} {now : Nat} :
    ∀ (batch : List NewSuggestion) (st : List StoredSuggestion × Nat),
      (∀ c ∈ batch, jsLower c.name = c.name) →
      LowerNames st.1 → DistinctKeys st.1 →
      LowerNames ((batch.foldl (upsertOne pid now) st)).1 ∧
        DistinctKeys ((batch.foldl (upsertOne pid now) st)).1 := by
  intro batch
  induction batch with
  | nil => exact fun st _ h1 h2 => ⟨h1, h2⟩
  | cons c cs ih =>
    intro st hb h1 h2
    exact ih _ (fun d hd => hb d (List.mem_cons_of_mem _ hd))
      (upsertOne_lowerNames h1 (hb c (List.mem_cons_self c cs)))
      (upsertOne_distinctKeys h2)

theorem GET_inv {store : List StoredSuggestion} {nextId : Nat} {pid : String}
    {kws : List String} {items : List RawItem} {now : Nat}
    (h1 : LowerNames store) (h2 : DistinctKeys store) :
    LowerNames (GET store nextId pid kws items now).1 ∧
      DistinctKeys (GET store nextId pid kws items now).1 :=
  foldl_upsert_inv (newSubredditsData store pid kws items) (store, nextId)
    (fun _ hc => (mem_newSubredditsData hc).1) h1 h2

theorem runAll_inv (runs : List RunArgs) :
    ∀ st : List StoredSuggestion × Nat, LowerNames st.1 → DistinctKeys st.1 →
      LowerNames (runAll runs st).1 ∧ DistinctKeys (runAll runs st).1 := by
  induction runs with
  | nil => exact fun st h1 h2 => ⟨h1, h2⟩
  | cons a rest ih =>
    intro st h1 h2
    have h := @GET_inv st.1 st.2 a.productId a.keywords a.items a.now h1 h2
    exact ih _ h.1 h.2

end ApiRoute

namespace RedditService

theorem scoreKeyword_ge (content : String) (s : Int) (k : String) :
    s ≤ scoreKeyword content s k := by
  simp only [scoreKeyword]
  split <;> split <;> omega

theorem foldl_scoreKeyword_ge (content : String) (kws : List String) :
    ∀ s : Int, s ≤ kws.foldl (scoreKeyword content) s := by
  induction kws with
  | nil => exact fun s => le_refl s
  | cons k ks ih =>
    exact fun s => le_trans (scoreKeyword_ge content s k) (ih _)

theorem memberBonus_ge (s m : Int) : s ≤ memberBonus s m := by
  unfold memberBonus
  split
  · omega
  · split
    · omega
    · split <;> omega

theorem engagementBonus_ge (content : String) (s : Int) :
    s ≤ engagementBonus content s := by
  unfold engagementBonus
  split <;> omega

theorem partMatchFloor_ge (content : String) (kws : List String) (s : Int) :
    s ≤ partMatchFloor content kws s := by
  unfold partMatchFloor
  split
  · exact le_max_left _ _
  · exact le_refl s

theorem calculateRelevanceScore_bounds (item : ApifyItem) (kws : List String) :
    0 ≤ calculateRelevanceScore item kws ∧
      calculateRelevanceScore item kws ≤ 100 := by
  have hc : (65:Int) ≤
      partMatchFloor (jsLower (item.title ++ " " ++ jsOr item.description "")) kws
        (engagementBonus (jsLower (item.title ++ " " ++ jsOr item.description ""))
          (memberBonus
            (kws.foldl
              (scoreKeyword (jsLower (item.title ++ " " ++ jsOr item.description ""))) 65)
            item.numberOfMembers)) :=
    le_trans (foldl_scoreKeyword_ge _ kws 65)
      (le_trans (memberBonus_ge _ _)
        (le_trans (engagementBonus_ge _ _) (partMatchFloor_ge _ _ _)))
  constructor
  · show (0:Int) ≤
      min 100
        (partMatchFloor (jsLower (item.title ++ " " ++ jsOr item.description "")) kws
          (engagementBonus (jsLower (item.title ++ " " ++ jsOr item.description ""))
            (memberBonus
              (kws.foldl
                (scoreKeyword (jsLower (item.title ++ " " ++ jsOr item.description ""))) 65)
              item.numberOfMembers)))
    exact le_min (by norm_num) (le_trans (by norm_num) hc)
  · show min (100:Int)
        (partMatchFloor (jsLower (item.title ++ " " ++ jsOr item.description "")) kws
          (engagementBonus (jsLower (item.title ++ " " ++ jsOr item.description ""))
            (memberBonus
              (kws.foldl
                (scoreKeyword (jsLower (item.title ++ " " ++ jsOr item.description ""))) 65)
              item.numberOfMembers))) ≤ 100
    exact min_le_left _ _

theorem cacheGate_length {store : List StoredSuggestion} {pid : String}
    (h : 5 ≤ (store.filter (fun r =>
        r.productId == pid && decide (60 ≤ r.relevanceScore))).length) :
    5 ≤ ((sortDesc (fun r => r.relevanceScore)
      (store.filter (fun r =>
        r.productId == pid && decide (60 ≤ r.relevanceScore)))).take 5).length := by
  rw [List.length_take, length_sortDesc]
  omega

end RedditService

/-- C1 counterexample: starting from the empty store, the two runs of
`c1runs` leave rows named `r/foo` and `foo` for the same product, and
these have the same canonical name `foo` — the store does contain two rows
with the same `(productId, name)` pair under the claim's prefix-stripped,
case-insensitive comparison.  The code strips the `r/` marker only once at
normalization and afterwards compares stored names without re-stripping,
so a doubled marker in the raw data breaks the claimed invariant. -/
theorem claim1_counterexample :
    ¬ UniqueCanonicalNames (ApiRoute.runAll c1runs ([], 0)).1 := by
  decide

/-- C1 (amended): for any sequence of `discover` invocations starting from
the empty store, the store never contains two rows with the same productId
and the same name compared case-insensitively (without re-stripping the
community marker: stripping happens once, during normalization).  All
stored names are lowercase, so this is exactly the uniqueness the upsert
key enforces. -/
theorem claim1_uniqueness (runs : List ApiRoute.RunArgs) :
    (ApiRoute.runAll runs ([], 0)).1.Pairwise
      (fun r s => r.productId ≠ s.productId ∨ jsLower r.name ≠ jsLower s.name) := by
  have h := ApiRoute.runAll_inv runs ([], 0)
    (fun r hr => absurd hr (List.not_mem_nil r)) List.Pairwise.nil
  refine h.2.imp_of_mem ?_
  intro a b ha hb hab
  rcases hab with hne | hne
  · exact Or.inl hne
  · refine Or.inr ?_
    rw [h.1 a ha, h.1 b hb]
    exact hne

/-- C3: every row present before a `discover` run survives the run with
`id`, `name`, `productId`, `title`, `url`, `isMonitored` and `createdAt`
unchanged — the merge's update path can therefore only have overwritten
`relevanceScore`, `description`, `memberCount`, `matchReason` and
`updatedAt` (the only other fields of a row).  In particular a row with
`isMonitored = true` keeps `isMonitored = true` after any later run that
reproduces the same candidate. -/
theorem claim3_update_frame (store : List StoredSuggestion) (nextId : Nat)
    (pid : String) (kws : List String) (items : List RawItem) (now : Nat)
    (r : StoredSuggestion) (hr : r ∈ store) :
    ∃ r' ∈ (ApiRoute.GET store nextId pid kws items now).1,
      r'.id = r.id ∧ r'.name = r.name ∧ r'.productId = r.productId ∧
        r'.title = r.title ∧ r'.url = r.url ∧
        r'.isMonitored = r.isMonitored ∧ r'.createdAt = r.createdAt :=
  ApiRoute.foldl_upsert_preserves _ (store, nextId) r hr

/-- Witness for C3 at a concrete monitored row and reproducing run. -/
theorem claim3_witness :
    ∃ r' ∈ (ApiRoute.GET [c3row] 1 "p" ["foo"] [c3item] 5).1,
      r'.id = c3row.id ∧ r'.name = c3row.name ∧ r'.productId = c3row.productId ∧
        r'.title = c3row.title ∧ r'.url = c3row.url ∧
        r'.isMonitored = c3row.isMonitored ∧ r'.createdAt = c3row.createdAt :=
  claim3_update_frame [c3row] 1 "p" ["foo"] [c3item] 5 c3row
    (List.mem_singleton.mpr rfl)

/-- C4: both relevance scorers of the repository (`route.ts` and
`reddit.ts`) return an integer score in `[0, 100]` for every candidate and
keyword list: the route scorer ends in `Math.min(100, Math.max(0, score))`
and the service scorer starts at 65, only ever adds, and ends in
`Math.min(100, score)`. -/
theorem claim4_score_bounds :
    (∀ (item : RawItem) (kws : List String),
      0 ≤ ApiRoute.calculateRelevanceScore item kws ∧
        ApiRoute.calculateRelevanceScore item kws ≤ 100) ∧
    (∀ (item : RedditService.ApifyItem) (kws : List String),
      0 ≤ RedditService.calculateRelevanceScore item kws ∧
        RedditService.calculateRelevanceScore item kws ≤ 100) := by
  constructor
  · intro item kws
    constructor
    · show (0:Int) ≤ min 100 (max 0 _)
      exact le_min (by norm_num) (le_max_left _ _)
    · show min (100:Int) (max 0 _) ≤ 100
      exact min_le_left _ _
  · exact RedditService.calculateRelevanceScore_bounds

/-- C5 counterexample: with six stored rows scoring `≥ 60`, `discover`
(the cache gate of `findRelevantSubreddits`, `take: 5`) returns only five
of them — the row scoring 85 is missing — so it does not return "those
rows" as claimed; only the top five by score are returned. -/
theorem claim5_counterexample :
    (c5store.filter (fun r =>
      r.productId == "p" && decide (60 ≤ r.relevanceScore))).length = 6 ∧
    ((RedditService.findRelevantSubreddits c5store 6 "p" none
        (Except.ok []) 0).2.2).length = 5 ∧
    storedToOut (c5row 5 85) ∉
      (RedditService.findRelevantSubreddits c5store 6 "p" none
        (Except.ok []) 0).2.2 := by
  decide

/-- C5 (amended): if the product has at least 5 stored rows with
`relevanceScore ≥ 60`, `discover` returns the **top five** of those rows
ordered by score descending, leaves the store unchanged, and does not
invoke the external candidate provider: the result is the same for every
provider response `resp` (and every keyword record `kwOpt`), which appear
nowhere on the right-hand side. -/
theorem claim5_cache_gate (store : List StoredSuggestion) (nextId : Nat)
    (pid : String) (kwOpt : Option (List String))
    (resp : Except Unit (List RedditService.ApifyItem)) (now : Nat)
    (h : 5 ≤ (store.filter (fun r =>
      r.productId == pid && decide (60 ≤ r.relevanceScore))).length) :
    RedditService.findRelevantSubreddits store nextId pid kwOpt resp now =
      (store, nextId,
        ((sortDesc (fun r => r.relevanceScore)
          (store.filter (fun r =>
            r.productId == pid && decide (60 ≤ r.relevanceScore)))).take 5).map
          storedToOut) := by
  simp only [RedditService.findRelevantSubreddits]
  rw [if_pos (RedditService.cacheGate_length h)]

/-- Witness for C5 (amended) at the six-row store. -/
theorem claim5_witness :
    RedditService.findRelevantSubreddits c5store 6 "p" none (Except.ok []) 0 =
      (c5store, 6,
        ((sortDesc (fun r => r.relevanceScore)
          (c5store.filter (fun r =>
            r.productId == "p" && decide (60 ≤ r.relevanceScore)))).take 5).map
          storedToOut) :=
  claim5_cache_gate c5store 6 "p" none (Except.ok []) 0 (by decide)

/-- C6 counterexample: with one existing row and a failing provider call,
`findRelevantSubreddits` returns the empty list — not the product's
existing stored rows as a ranked list, as the claim states.  (The store is
left unchanged and no failure is reported.) -/
theorem claim6_counterexample :
    (RedditService.findRelevantSubreddits c6store 1 "p" (some ["k"])
      (Except.error ()) 0).2.2 = [] ∧
    (RedditService.findRelevantSubreddits c6store 1 "p" (some ["k"])
      (Except.error ()) 0).1 = c6store ∧
    c6store ≠ [] := by
  decide

/-- C6 (amended): when the provider call fails and the cache gate did not
short-circuit (fewer than 5 stored rows scoring `≥ 60`), `discover`
treats the failure as zero new candidates: it reports no failure, leaves
the store unchanged, and returns the **empty** list — not the product's
existing stored rows. -/
theorem claim6_provider_failure (store : List StoredSuggestion) (nextId : Nat)
    (pid : String) (kws : List String) (now : Nat)
    (h : (store.filter (fun r =>
      r.productId == pid && decide (60 ≤ r.relevanceScore))).length < 5) :
    RedditService.findRelevantSubreddits store nextId pid (some kws)
        (Except.error ()) now = (store, nextId, []) := by
  have hlt : ¬ 5 ≤ ((sortDesc (fun r => r.relevanceScore)
      (store.filter (fun r =>
        r.productId == pid && decide (60 ≤ r.relevanceScore)))).take 5).length := by
    rw [List.length_take, length_sortDesc]
    omega
  simp only [RedditService.findRelevantSubreddits]
  rw [if_neg hlt]
  by_cases hk : kws.isEmpty
  · rw [if_pos hk]
  · rw [if_neg hk]
    rfl

/-- Witness for C6 (amended) at the one-row store. -/
theorem claim6_witness :
    RedditService.findRelevantSubreddits c6store 1 "p" (some ["k"])
        (Except.error ()) 0 = (c6store, 1, []) :=
  claim6_provider_failure c6store 1 "p" ["k"] 0 (by decide)

/-- C7 (amended): the route's dedup step compares the candidate's
canonical name against the lowercased — not re-stripped — stored names.
When every stored name of the product is already canonical
(`canonicalName r.name = r.name`, the form the route itself stores for
normalized candidates), the claim holds as stated: (a) any raw item whose
canonical name (`itemName`, i.e. `canonicalName` of its display name /
title) is already stored for the product is mapped to `null` and proceeds
no further; (b) every candidate that reaches scoring/merge
(`newSubredditsData`) has a name distinct from every stored canonical
name of the product. -/
theorem claim7_dedup (store : List StoredSuggestion) (pid : String)
    (kws : List String) (items : List RawItem)
    (hcanon : ∀ r ∈ store, r.productId = pid → canonicalName r.name = r.name) :
    (∀ item : RawItem,
      (∃ r ∈ store, r.productId = pid ∧
          canonicalName r.name = ApiRoute.itemName item) →
        ApiRoute.processItem (ApiRoute.existingNames store pid) kws pid item
          = none) ∧
    (∀ c ∈ ApiRoute.newSubredditsData store pid kws items,
      ∀ r ∈ store, r.productId = pid → canonicalName r.name ≠ c.name) := by
  constructor
  · rintro item ⟨r, hr, hpid, heq⟩
    have hname : r.name = ApiRoute.itemName item := by
      rw [← hcanon r hr hpid]
      exact heq
    have hlowname : jsLower r.name = ApiRoute.itemName item := by
      rw [hname]
      exact jsLower_idem _
    have hcont : (ApiRoute.existingNames store pid).contains
        (ApiRoute.itemName item) = true :=
      (string_contains_iff _ _).mpr
        (ApiRoute.mem_existingNames.mpr ⟨r, hr, hpid, hlowname⟩)
    simp only [ApiRoute.processItem]
    rw [if_pos hcont]
  · intro c hc r hr hpid heq
    have h1 := (ApiRoute.mem_newSubredditsData hc).1
    have h2 := (ApiRoute.mem_newSubredditsData hc).2.2.2.2
    apply h2
    refine ApiRoute.mem_existingNames.mpr ⟨r, hr, hpid, ?_⟩
    have hrc : r.name = c.name := by
      rw [← hcanon r hr hpid]
      exact heq
    rw [hrc]
    exact h1

/-- Witness for C7: the colliding record is dropped by the dedup step. -/
theorem claim7_witness :
    ApiRoute.processItem (ApiRoute.existingNames [c7row] "p") ["foo"] "p"
      c7item = none :=
  (claim7_dedup [c7row] "p" ["foo"] [c7item] (by decide)).1 c7item (by decide)

/-- C7 counterexample: when a stored name still carries the community
marker (`r/foo`, which the route itself can store — see C1), a candidate
whose canonical name `foo` **is** in the set of stored canonical names is
not dropped: it survives `processItem` and reaches scoring/merge in
`newSubredditsData`, contradicting the claim that every such candidate is
dropped. -/
theorem claim7_counterexample :
    canonicalName c7badrow.name = ApiRoute.itemName c7newitem ∧
    c7badrow.productId = "p" ∧
    ApiRoute.processItem (ApiRoute.existingNames [c7badrow] "p") ["foo"] "p"
      c7newitem ≠ none ∧
    (ApiRoute.newSubredditsData [c7badrow] "p" ["foo"] [c7newitem]).length = 1 := by
  decide

/-- C8: a raw record flagged `over18`, or with fewer than 1000 members,
fails the route's filter, so a provider response containing it produces
exactly the same store and the same returned list as the response without
it — the record never reaches normalization, the store, or the output. -/
theorem claim8_rejected (store : List StoredSuggestion) (nextId : Nat)
    (pid : String) (kws : List String) (items1 items2 : List RawItem)
    (bad : RawItem) (now : Nat)
    (h : bad.over18 = true ∨ bad.numberOfMembers < 1000) :
    ApiRoute.GET store nextId pid kws (items1 ++ bad :: items2) now =
      ApiRoute.GET store nextId pid kws (items1 ++ items2) now := by
  have hpf : ApiRoute.passesFilter bad = false := by
    rcases h with h | h
    · simp [ApiRoute.passesFilter, h]
    · have hd : decide (1000 ≤ bad.numberOfMembers) = false := by
        simp only [decide_eq_false_iff_not]
        omega
      simp [ApiRoute.passesFilter, hd]
  have hfil : (items1 ++ bad :: items2).filter ApiRoute.passesFilter =
      (items1 ++ items2).filter ApiRoute.passesFilter := by
    simp [List.filter_append, List.filter_cons, hpf]
  have hnew : ∀ st : List StoredSuggestion,
      ApiRoute.newSubredditsData st pid kws (items1 ++ bad :: items2) =
        ApiRoute.newSubredditsData st pid kws (items1 ++ items2) := by
    intro st
    unfold ApiRoute.newSubredditsData
    rw [hfil]
  simp only [ApiRoute.GET, ApiRoute.mergedState]
  rw [hnew]

/-- Witness for C8: the NSFW record has no effect on the run. -/
theorem claim8_witness :
    ApiRoute.GET [] 0 "p" ["bad"] [c8bad] 3 = ApiRoute.GET [] 0 "p" ["bad"] [] 3 :=
  claim8_rejected [] 0 "p" ["bad"] [] [] c8bad 3 (Or.inl rfl)

/-- C9 counterexample: the record of the claim carries only a `title` and
no `displayName`, and the route's filter requires a truthy `displayName`
(`item.displayName // Ensure displayName exists`), so the record is
rejected before normalization: a discover run over it on an empty store
stores nothing and returns nothing — it is not merged as a
StoredSuggestion as the claim states. -/
theorem claim9_counterexample :
    ApiRoute.passesFilter c9item = false ∧
    (ApiRoute.GET [] 0 "p1" c9kws [c9item] 7).1 = [] ∧
    (ApiRoute.GET [] 0 "p1" c9kws [c9item] 7).2.2 = [] := by
  decide

/-- C9 (amended): with `displayName: "r/MealPrepSunday"` added to the
record, the scenario goes through as claimed: the record passes the
filter, its canonical name is `mealprepsunday`, the route scorer gives it
exactly 95 (base 70, two description hits `+10` each, `+5` for 150000
members, no low-match penalty since both keywords match), and a discover
run on the empty store merges it as a single new StoredSuggestion with
`isMonitored = false`. -/
theorem claim9_scenario :
    ApiRoute.passesFilter c9itemDN = true ∧
    ApiRoute.itemName c9itemDN = "mealprepsunday" ∧
    ApiRoute.calculateRelevanceScore c9itemDN c9kws = 95 ∧
    (ApiRoute.GET [] 0 "p1" c9kws [c9itemDN] 7).1 = [c9row] ∧
    c9row.isMonitored = false ∧ c9row.relevanceScore = 95 := by
  decide

/-- C10: every candidate that reaches the merge step of the route
(`newSubredditsData`) has `relevanceScore ≥ 75` (the route's cutoff,
stricter than the spec's floor of 60), and hence every row of the store
after a run is either a pre-existing row or carries a score `≥ 75` — every
row the route ever creates or updates scores at least 75, and a newly
discovered candidate scoring below 75 is dropped and never persisted. -/
theorem claim10_score_floor (store : List StoredSuggestion) (nextId : Nat)
    (pid : String) (kws : List String) (items : List RawItem) (now : Nat) :
    (∀ c ∈ ApiRoute.newSubredditsData store pid kws items,
      75 ≤ c.relevanceScore) ∧
    (∀ r' ∈ (ApiRoute.GET store nextId pid kws items now).1,
      r' ∈ store ∨ 75 ≤ r'.relevanceScore) := by
  constructor
  · exact fun _ hc => (ApiRoute.mem_newSubredditsData hc).2.2.2.1
  · intro r' hr'
    rcases ApiRoute.mem_foldl_upsert _ (store, nextId) r' hr' with h | ⟨c, hc, he⟩
    · exact Or.inl h
    · refine Or.inr ?_
      rw [he]
      exact (ApiRoute.mem_newSubredditsData hc).2.2.2.1

/-- Witness for C10 at the C9 scenario: the row created for the
`mealprepsunday` candidate scores at least 75. -/
theorem claim10_witness :
    c9row ∈ ([] : List StoredSuggestion) ∨ 75 ≤ c9row.relevanceScore :=
  (claim10_score_floor [] 0 "p1" c9kws [c9itemDN] 7).2 c9row (by decide)
